import Mathlib

/-!
Shallow embedding of the `code_monkey` sources (Python) in Lean 4.

File text is modelled as `List Char`.  Python string slicing `s[a:b]` becomes
`pySlice`, `str.splitlines(True)` becomes `splitlinesTrue`, and fallible
operations return `Except PyErr`.  The modules `code_monkey/utils.py` and the
free function `overwrite_file_region` are referenced by the sources but are
not present in the repository snapshot; they are modelled from the spec and
marked as such in their doc comments.
-/

deriving instance DecidableEq for Except

namespace CodeMonkey

/-- Failure conditions.  `ioError` models a Python `IOError` from `open()`
(e.g. opening a directory), `indexError` a Python `IndexError`, `typeError`
a Python `TypeError` (e.g. using `None` as an index), `outOfRange` the
Position Resolver failure from the spec.  `boundaryNotFound` and
`nodeUnaddressable` are the conditions named by the spec; they are included
so that claims about them can be stated, but nothing in the embedded code
ever produces them. -/
inductive PyErr where
  | ioError
  | indexError
  | typeError
  | outOfRange
  | boundaryNotFound
  | nodeUnaddressable
  deriving DecidableEq

/-- Python `s[a:b]` for non-negative bounds: elements at indices
`a, a+1, ..., b-1`, clamped to the sequence. -/
def pySlice {α : Type} (l : List α) (a b : Nat) : List α :=
  (l.take b).drop a

/-- Python `str.splitlines(keepends=True)`, for the line terminators that can
occur in the repository sources: `\n`, `\r\n` and `\r`.  Each line keeps its
terminator; a trailing segment without a terminator is its own line. -/
def splitlinesTrue : List Char → List (List Char)
  | [] => []
  | '\n' :: rest => ['\n'] :: splitlinesTrue rest
  | '\r' :: '\n' :: rest => ['\r', '\n'] :: splitlinesTrue rest
  | '\r' :: rest => ['\r'] :: splitlinesTrue rest
  | c :: rest =>
    match splitlinesTrue rest with
    | [] => [[c]]
    | line :: lines => (c :: line) :: lines

/-- Modelled from the spec: `line_column_to_absolute_index` lives in
`code_monkey/utils.py`, which is missing from the snapshot (only its callers
are present).  Per spec section 4.1 it returns the absolute character index
of the given 0-based line and column and fails with an `OutOfRange` condition
when `line` exceeds the number of lines in the text; line splitting preserves
the line terminators. -/
def line_column_to_absolute_index (source : List Char) (line col : Nat) :
    Except PyErr Nat :=
  let lines := splitlinesTrue source
  if line > lines.length then Except.error PyErr.outOfRange
  else Except.ok (((lines.take line).map List.length).sum + col)

/-- Helper for `absolute_index_to_line_column`: walk the lines, consuming the
offset. -/
def absIdxGo : List (List Char) → Nat → Nat → Nat × Nat
  | [], off, line => (line, off)
  | l :: ls, off, line =>
    if off < l.length then (line, off) else absIdxGo ls (off - l.length) (line + 1)

/-- Modelled from the spec: `absolute_index_to_line_column` lives in the
missing `code_monkey/utils.py`.  Per spec section 4.1 it is the inverse
mapping of `line_column_to_absolute_index` and fails with an `OutOfRange`
condition when the offset exceeds the length of the text. -/
def absolute_index_to_line_column (source : List Char) (offset : Nat) :
    Except PyErr (Nat × Nat) :=
  if offset > source.length then Except.error PyErr.outOfRange
  else Except.ok (absIdxGo (splitlinesTrue source) offset 0)

/-- `change_generator.Change`: a single change to a single file, replacing the
content from indices `start` through `end_` (inclusive) with `new_text`. -/
structure Change where
  path : String
  start : Nat
  end_ : Nat
  new_text : List Char
  deriving DecidableEq

/-- The `new_source` computed inside `Change.__unicode__`:
`source[:start] + new_text + source[(end+1):]` — the file content after the
change is applied.  The preview is the unified diff of `source` against this
text. -/
def Change.new_source (c : Change) (source : List Char) : List Char :=
  source.take c.start ++ c.new_text ++ source.drop (c.end_ + 1)

/-- The duck-typed interface of `node.Node` that `change_generator.py`
consumes: a node's filesystem path, the content of that path when it is a
readable file (`none` models `open()` raising `IOError`, e.g. for the
directory behind a project or package node), and the line/column properties.
For `ClassNode`, `FunctionNode` and `ModuleNode` the concrete property
overrides are baked in by the constructor functions below. -/
structure Node where
  fs_path : String
  file : Option (List Char)
  start_line : Nat
  start_column : Nat
  end_line : Nat
  end_column : Nat
  body_start_line : Nat
  body_start_column : Nat
  body_end_line : Nat
  body_end_column : Nat

/-- `Node.get_file_source_code`: read the whole file behind the node;
opening a directory raises `IOError`. -/
def Node.get_file_source_code (self : Node) : Except PyErr (List Char) :=
  match self.file with
  | some s => Except.ok s
  | none => Except.error PyErr.ioError

/-- `Node.start_index`. -/
def Node.start_index (self : Node) : Except PyErr Nat := do
  line_column_to_absolute_index (← self.get_file_source_code)
    self.start_line self.start_column

/-- `Node.end_index` (base class: from `end_line`/`end_column`). -/
def Node.end_index (self : Node) : Except PyErr Nat := do
  line_column_to_absolute_index (← self.get_file_source_code)
    self.end_line self.end_column

/-- `Node.body_start_index`. -/
def Node.body_start_index (self : Node) : Except PyErr Nat := do
  line_column_to_absolute_index (← self.get_file_source_code)
    self.body_start_line self.body_start_column

/-- `Node.body_end_index`. -/
def Node.body_end_index (self : Node) : Except PyErr Nat := do
  line_column_to_absolute_index (← self.get_file_source_code)
    self.body_end_line self.body_end_column

/-- `Node.get_source`: `_get_source_region(start_index, end_index)`, the
substring of the file from `start_index` up to but not including
`end_index`. -/
def Node.get_source (self : Node) : Except PyErr (List Char) := do
  let a ← self.start_index
  let b ← self.end_index
  let src ← self.get_file_source_code
  Except.ok (pySlice src a b)

/-- `Node.get_body_source`. -/
def Node.get_body_source (self : Node) : Except PyErr (List Char) := do
  let a ← self.body_start_index
  let b ← self.body_end_index
  let src ← self.get_file_source_code
  Except.ok (pySlice src a b)

/-- Modelled from the spec: `change_generator.py` calls
`self.node.get_source_code()`, a method that is absent from the `node.py` in
the snapshot (which has `get_source`).  Per spec section 4.4,
`inject_at_index` reads the node's current whole-span text, which is what
`get_source` returns. -/
def Node.get_source_code (self : Node) : Except PyErr (List Char) :=
  self.get_source

/-- Modelled from the spec: the body-text counterpart of
`Node.get_source_code` used by `inject_at_body_index`. -/
def Node.get_body_source_code (self : Node) : Except PyErr (List Char) :=
  self.get_body_source

/-- `ChangeGenerator.overwrite`: replace the node's contents entirely with
`new_source`.  `from_index` is the offset of `(start_line, start_column)`;
`to_index` is the offset of column 0 of line `end_line + 1`, minus one. -/
def overwrite (node : Node) (new_source : List Char) : Except PyErr Change := do
  let file_source ← node.get_file_source_code
  let from_index ←
    line_column_to_absolute_index file_source node.start_line node.start_column
  let to_index :=
    (← line_column_to_absolute_index file_source (node.end_line + 1) 0) - 1
  Except.ok { path := node.fs_path, start := from_index, end_ := to_index,
              new_text := new_source }

/-- Modelled from the spec: `overwrite_file_region` is called by
`ChangeGenerator.overwrite_body` but is defined nowhere in the snapshot.
Per spec section 4.4, `overwrite_body` returns a Change addressed by the
computed offsets, so the missing function builds that Change. -/
def overwrite_file_region (path : String) (start end_ : Nat)
    (new_text : List Char) : Change :=
  { path := path, start := start, end_ := end_, new_text := new_text }

/-- `ChangeGenerator.overwrite_body`: like `overwrite` but starting from the
body-span start; the end offset is computed exactly as in `overwrite`. -/
def overwrite_body (node : Node) (new_source : List Char) :
    Except PyErr Change := do
  let file_source ← node.get_file_source_code
  let from_index ← line_column_to_absolute_index file_source
    node.body_start_line node.body_start_column
  let to_index :=
    (← line_column_to_absolute_index file_source (node.end_line + 1) 0) - 1
  Except.ok (overwrite_file_region node.fs_path from_index to_index new_source)

/-- `ChangeGenerator.inject_at_index`: splice `inject_source` into the node's
whole-span text at `index` (relative to the node start) and overwrite the
whole node with the result. -/
def inject_at_index (node : Node) (index : Nat) (inject_source : List Char) :
    Except PyErr Change := do
  let node_source ← node.get_source_code
  let new_source :=
    node_source.take index ++ inject_source ++ node_source.drop index
  overwrite node new_source

/-- `ChangeGenerator.inject_at_body_index`. -/
def inject_at_body_index (node : Node) (index : Nat)
    (inject_source : List Char) : Except PyErr Change := do
  let body_source ← node.get_body_source_code
  let new_source :=
    body_source.take index ++ inject_source ++ body_source.drop index
  overwrite_body node new_source

/-- `node.ClassNode` viewed through the `Node` interface: astroid reports a
1-based `fromlineno`, a 1-based `tolineno` and a 0-based `col_offset`.
`start_line = fromlineno - 1`; `end_line = tolineno` (the base class does not
subtract 1, so `end_line` is the 0-based index of the line after the node's
last line, making `end_index` with `end_column = 0` an exclusive bound);
the body starts at column 0 of `start_line + 1`. -/
def ClassNode (fs_path : String) (file : Option (List Char))
    (fromlineno tolineno col_offset : Nat) : Node :=
  { fs_path := fs_path, file := file,
    start_line := fromlineno - 1, start_column := col_offset,
    end_line := tolineno, end_column := 0,
    body_start_line := fromlineno - 1 + 1, body_start_column := 0,
    body_end_line := tolineno, body_end_column := 0 }

/-- `node.FunctionNode` viewed through the `Node` interface (identical
bounds logic to `ClassNode`). -/
def FunctionNode (fs_path : String) (file : Option (List Char))
    (fromlineno tolineno col_offset : Nat) : Node :=
  ClassNode fs_path file fromlineno tolineno col_offset

/-- `node.ModuleNode` viewed through the `Node` interface: astroid reports
`fromlineno = 0` for modules and the class does not subtract 1;
`start_column` is forced to 0; the body-span equals the whole-span. -/
def ModuleNode (fs_path : String) (file : Option (List Char))
    (fromlineno tolineno : Nat) : Node :=
  { fs_path := fs_path, file := file,
    start_line := fromlineno, start_column := 0,
    end_line := tolineno, end_column := 0,
    body_start_line := fromlineno, body_start_column := 0,
    body_end_line := tolineno, body_end_column := 0 }

/-- `node.VariableNode`: backed by an astroid `Assign` object with a target
(`name_*` fields, from `self._astroid_name`), a value (`value_*` fields, from
`self._astroid_value`, with `value_as_string` the provider-rendered text
`as_string()`), and the `next_sibling()` of the assignment, reduced to the
pair `(fromlineno, col_offset)` that `end_index` reads from it. -/
structure VariableNode where
  fs_path : String
  file : Option (List Char)
  name_fromlineno : Nat
  name_col_offset : Nat
  value_fromlineno : Nat
  value_col_offset : Nat
  value_tolineno : Nat
  value_as_string : List Char
  next_sibling : Option (Nat × Nat)

/-- `VariableNode.get_file_source_code` (inherited from `Node`). -/
def VariableNode.get_file_source_code (self : VariableNode) :
    Except PyErr (List Char) :=
  match self.file with
  | some s => Except.ok s
  | none => Except.error PyErr.ioError

/-- The `lines_to_scan` computation inside `VariableNode.end_index`.
With a next sibling: `file_source_lines[astroid_end_line:(next_sibling_line+1)]`
with the last element truncated at the sibling's column (assigning to `[-1]`
raises `IndexError` on an empty list).  Without a sibling:
`file_source_lines[value.tolineno:len(file_source_lines)]`. -/
def VariableNode.lines_to_scan (self : VariableNode) :
    Except PyErr (List (List Char)) := do
  let src ← self.get_file_source_code
  let file_source_lines := splitlinesTrue src
  let astroid_end_line := self.value_tolineno - 1
  match self.next_sibling with
  | some (next_sibling_line, next_sibling_column) =>
    let lts := pySlice file_source_lines astroid_end_line
      (next_sibling_line + 1)
    match lts.getLast? with
    | none => Except.error PyErr.indexError
    | some last => Except.ok (lts.dropLast ++ [last.take next_sibling_column])
  | none =>
    Except.ok (pySlice file_source_lines self.value_tolineno
      file_source_lines.length)

/-- The comment-removal step inside the scan loop:
`if '#' in line: line = line[0:line.find('#')]`. -/
def stripComment (line : List Char) : List Char :=
  if line.contains '#' then line.take (line.findIdx (fun c => c == '#'))
  else line

/-- The reverse scan loop of `VariableNode.end_index`: iterate over
`reversed(lines_to_scan)` with `line_index` counting from 0, strip the
trailing comment from each line, and search the line right-to-left
(`enumerate(reversed(line))`) for the terminating character.  On a match,
convert `astroid_end_line + (len(lines_to_scan) - (line_index + 1))` and
`len(line) - char_index` back to an absolute index; falling through returns
Python `None`. -/
def scanLinesRev (src : List Char) (terminating_char : Char)
    (astroid_end_line total : Nat) :
    List (List Char) → Nat → Except PyErr (Option Nat)
  | [], _ => Except.ok none
  | line :: rest, line_index =>
    let line := stripComment line
    match line.reverse.findIdx? (fun c => c == terminating_char) with
    | some char_index =>
      let line_index_in_file :=
        astroid_end_line + (total - (line_index + 1))
      let char_index_in_line := line.length - char_index
      do
        let r ← line_column_to_absolute_index src line_index_in_file
          char_index_in_line
        Except.ok (some r)
    | none =>
      scanLinesRev src terminating_char astroid_end_line total rest
        (line_index + 1)

/-- `VariableNode.end_index`: work around the astroid end-line bug by
scanning `lines_to_scan` in reverse for the last character of the rendered
value (`as_string()[-1]`); `Except.ok none` is the implicit Python `None`
when no line matches. -/
def VariableNode.end_index (self : VariableNode) :
    Except PyErr (Option Nat) := do
  let src ← self.get_file_source_code
  let lts ← self.lines_to_scan
  let astroid_end_line := self.value_tolineno - 1
  match self.value_as_string.getLast? with
  | none => Except.error PyErr.indexError
  | some terminating_char =>
    scanLinesRev src terminating_char astroid_end_line lts.length
      lts.reverse 0

/-- `VariableNode.start_line` is `name.fromlineno - 1` and
`VariableNode.start_column` is `name.col_offset`, so `start_index` is their
absolute offset. -/
def VariableNode.start_index (self : VariableNode) : Except PyErr Nat := do
  line_column_to_absolute_index (← self.get_file_source_code)
    (self.name_fromlineno - 1) self.name_col_offset

/-- `VariableNode.body_start_line` is `value.fromlineno - 1` and
`VariableNode.body_start_column` is `value.col_offset`, so
`body_start_index` is their absolute offset. -/
def VariableNode.body_start_index (self : VariableNode) : Except PyErr Nat := do
  line_column_to_absolute_index (← self.get_file_source_code)
    (self.value_fromlineno - 1) self.value_col_offset

/-- `VariableNode.end_line`: first find the absolute `end_index`, then work
backwards with `absolute_index_to_line_column`; passing Python `None` as the
index is a `TypeError`. -/
def VariableNode.end_line (self : VariableNode) : Except PyErr Nat := do
  let src ← self.get_file_source_code
  match (← self.end_index) with
  | none => Except.error PyErr.typeError
  | some i => Except.ok (← absolute_index_to_line_column src i).1

/-- `VariableNode.end_column`, computed like `VariableNode.end_line`. -/
def VariableNode.end_column (self : VariableNode) : Except PyErr Nat := do
  let src ← self.get_file_source_code
  match (← self.end_index) with
  | none => Except.error PyErr.typeError
  | some i => Except.ok (← absolute_index_to_line_column src i).2

/-- `VariableNode.body_end_index`: `VariableNode` does not override
`body_end_line`/`body_end_column`, which the base class defines as
`end_line`/`end_column`, so the body-end offset is the round trip of the
scanned `end_index` through the Position Resolver. -/
def VariableNode.body_end_index (self : VariableNode) : Except PyErr Nat := do
  let src ← self.get_file_source_code
  let l ← self.end_line
  let c ← self.end_column
  line_column_to_absolute_index src l c

/-- The name-disambiguation loop of `ImportNode.__init__`:
`while self.name in siblings: self.name = base_name + '_' + str(index);
index += 1`.  The loop is embedded with fuel; `importNodeName` supplies
enough fuel for the loop to terminate on every input (see
`importNodeName_total`). -/
def importNameLoop (base : String) (siblings : List String) :
    Nat → Nat → Option String
  | 0, _ => none
  | fuel + 1, index =>
    let cand := base ++ "_" ++ Nat.repr index
    if cand ∈ siblings then importNameLoop base siblings fuel (index + 1)
    else some cand

/-- The local name an `ImportNode` ends up with, given the import's base
local name (`astroid_object.names[0][0]`) and the sibling names already
taken. -/
def importNodeName (base : String) (siblings : List String) : Option String :=
  if base ∈ siblings then importNameLoop base siblings (siblings.length + 1) 0
  else some base

/-- Decimal valuation of a digit string; inverts `Nat.repr` (used to show the
import-name candidates are pairwise distinct). -/
def decDigitsVal (l : List Char) : Nat :=
  l.foldl (fun a c => a * 10 + (c.toNat - 48)) 0

/-! Concrete instances used by the claim theorems.  The files are ordinary
Python sources; `\x7b`, `\x7d` and `\x27` denote braces and the single
quote. -/

/-- A file whose first two lines hold a class and whose third line holds an
unrelated statement: `"class A:\n    pass\nx = 1\n"`. -/
def exFileClass : List Char := "class A:\n    pass\nx = 1\n".data

/-- The class node for lines 1-2 of `exFileClass` (astroid: `fromlineno = 1`,
`tolineno = 2`, `col_offset = 0`). -/
def exClassNode : Node := ClassNode "f.py" (some exFileClass) 1 2 0

/-- The first three lines of the test project's `settings.py`:
`"ONE_LINER = 'foobar'\n\nMULTILINE_SETTING = {\n"`. -/
def exFileSettings : List Char :=
  "ONE_LINER = \x27foobar\x27\n\nMULTILINE_SETTING = \x7b\n".data

/-- The `Change(path, 0, 0, "foobar\n")` constructed by `test_str`. -/
def exChangeInsert : Change :=
  { path := "settings.py", start := 0, end_ := 0, new_text := "foobar\n".data }

/-- `"x = {}\n"`: a single-line variable whose value is reported by the
provider as ending on line 1, with no next sibling.  The no-sibling branch
scans `file_source_lines[1:1] = []`, so no candidate line contains the
terminating character. -/
def exVarNoOccur : VariableNode :=
  { fs_path := "settings.py", file := some ("x = \x7b\x7d\n".data),
    name_fromlineno := 1, name_col_offset := 0,
    value_fromlineno := 1, value_col_offset := 4, value_tolineno := 1,
    value_as_string := "\x7b\x7d".data, next_sibling := none }

/-- `"x = {\n}\ny = 2\nz = 3\n"`: the variable `x` spans lines 1-2, its next
sibling `y` starts at line 3 column 0, and another statement follows. -/
def exFileSibling : List Char := "x = \x7b\n\x7d\ny = 2\nz = 3\n".data

/-- The variable `x` of `exFileSibling` (value reported to end on line 1,
next sibling at `(fromlineno 3, col_offset 0)`). -/
def exVarSibling : VariableNode :=
  { fs_path := "settings.py", file := some exFileSibling,
    name_fromlineno := 1, name_col_offset := 0,
    value_fromlineno := 1, value_col_offset := 4, value_tolineno := 1,
    value_as_string := "\x7b\x7d".data, next_sibling := some (3, 0) }

/-- `"x = {\n    'a': 1,\n}  #c\n"`: a multi-line dict whose closing brace on
line 3 is followed by a trailing comment; the provider reports the value as
ending on line 2 (the last line with content) and there is no next
sibling. -/
def exFileComment : List Char :=
  "x = \x7b\n    \x27a\x27: 1,\n\x7d  #c\n".data

/-- The variable of `exFileComment`. -/
def exVarComment : VariableNode :=
  { fs_path := "settings.py", file := some exFileComment,
    name_fromlineno := 1, name_col_offset := 0,
    value_fromlineno := 1, value_col_offset := 4, value_tolineno := 2,
    value_as_string := "\x7b\x27a\x27: 1\x7d".data, next_sibling := none }

/-- `"xyzzy = {'a': 1,\n}\n"`: a two-line dict assigned to `xyzzy`; the
provider reports the value as ending on line 1 and there is no next
sibling. -/
def exFileInvariant : List Char :=
  "xyzzy = \x7b\x27a\x27: 1,\n\x7d\n".data

/-- The variable of `exFileInvariant` (value starts at column 8). -/
def exVarInvariant : VariableNode :=
  { fs_path := "settings.py", file := some exFileInvariant,
    name_fromlineno := 1, name_col_offset := 0,
    value_fromlineno := 1, value_col_offset := 8, value_tolineno := 1,
    value_as_string := "\x7b\x27a\x27: 1\x7d".data, next_sibling := none }

/-- `"x = [\n'a#b']\ny = 2\n"`: a two-line list whose final line contains a
`#` inside a string literal; the provider reports the value as ending on
line 2 and the next sibling starts at line 3 column 0. -/
def exFileHash : List Char := "x = [\n\x27a#b\x27]\ny = 2\n".data

/-- The variable of `exFileHash`. -/
def exVarHash : VariableNode :=
  { fs_path := "settings.py", file := some exFileHash,
    name_fromlineno := 1, name_col_offset := 0,
    value_fromlineno := 1, value_col_offset := 4, value_tolineno := 2,
    value_as_string := "[\x27a#b\x27]".data, next_sibling := some (3, 0) }

/-- A project root node: its `fs_path` is a directory, so `open()` fails with
`IOError` (modelled as `file := none`).  The line/column fields are never
reached (accessing them on a real `ProjectNode` would itself fail, since it
has no astroid object). -/
def exProjectNode : Node :=
  { fs_path := "/project", file := none,
    start_line := 0, start_column := 0, end_line := 0, end_column := 0,
    body_start_line := 0, body_start_column := 0,
    body_end_line := 0, body_end_column := 0 }

/-! Claim theorems. -/

/-- C1: the claim says `overwrite(X)` spans from the node's start offset
through the end of the node's own last line, so that applying the Change
replaces exactly the node's lines.  Evaluated at `exClassNode` (lines 0-1 of
`exFileClass`): the generated Change ends at offset 23, although column 0 of
the line following the node's last line is offset 18 (so the claimed
inclusive end is 17); applying the Change yields just the replacement text,
deleting the unrelated following line `x = 1\n` instead of leaving it
unchanged.  (`Node.end_line` is `tolineno`, already one line past the node's
0-based last line, and `overwrite` adds one more.) -/
theorem c1_overwrite_consumes_following_line :
    overwrite exClassNode ("NEW\n".data) =
      Except.ok { path := "f.py", start := 0, end_ := 23,
                  new_text := "NEW\n".data }
    ∧ line_column_to_absolute_index exFileClass 2 0 = Except.ok 18
    ∧ Change.new_source ⟨"f.py", 0, 23, "NEW\n".data⟩ exFileClass = "NEW\n".data
    ∧ Change.new_source ⟨"f.py", 0, 23, "NEW\n".data⟩ exFileClass ≠
        "NEW\n".data ++ "x = 1\n".data := by
  decide

/-- C2 counterexample: for `exVarNoOccur` no candidate line contains the
terminating character (the scanned list is empty), and `end_index` falls
through to Python `None` — an absent result — rather than failing with a
`BoundaryNotFound` condition as the claim states. -/
theorem c2_counterexample_end_index_silently_none :
    VariableNode.end_index exVarNoOccur = Except.ok none
    ∧ VariableNode.end_index exVarNoOccur ≠
        Except.error PyErr.boundaryNotFound := by
  decide

/-- C3: the claim says the scanned range extends through the start line of
the next sibling, truncated at the sibling's column so that no sibling text
is scanned.  Evaluated at `exVarSibling` (sibling `y` at line 3 column 0 of
`exFileSibling`): the code slices through `next_sibling.fromlineno + 1`
(one line past the sibling's start line) and truncates only that extra line,
so the sibling's own line `y = 2\n` is scanned in full. -/
theorem c3_scan_range_includes_sibling_text :
    VariableNode.lines_to_scan exVarSibling =
      Except.ok ["x = \x7b\n".data, "\x7d\n".data, "y = 2\n".data, []]
    ∧ "y = 2\n".data ∈
        ["x = \x7b\n".data, "\x7d\n".data, "y = 2\n".data, ([] : List Char)] := by
  decide

/-- C4: the claim (and the repository's own `test_str`) expects the preview
of `Change(path, 0, 0, "foobar\n")` to be a pure insertion leaving the
original first line unchanged.  The `Change` in `change_generator.py`
replaces the inclusive range `[0, 0]`, so the applied text drops the leading
`O` of `ONE_LINER`: the diff cannot show `ONE_LINER = 'foobar'` as an
unchanged context line. -/
theorem c4_inclusive_change_is_not_pure_insertion :
    Change.new_source exChangeInsert exFileSettings =
      ("foobar\nNE_LINER = \x27foobar\x27\n\nMULTILINE_SETTING = \x7b\n").data
    ∧ Change.new_source exChangeInsert exFileSettings ≠
        "foobar\n".data ++ exFileSettings := by
  decide

/-- C5: the claim says the resolved end offset lands just past the closing
bracket for every multi-line value with a trailing same-line comment.
Evaluated at `exVarComment`: the value's text occupies offsets `[4, 19)` of
`exFileComment` (so the offset just past the closing brace is 19), but with
no next sibling the code both skips the provider-reported end line and
computes the found line's index one too low, resolving the end offset to 7 —
inside the line `    'a': 1,`. -/
theorem c5_end_offset_misses_bracket :
    VariableNode.end_index exVarComment = Except.ok (some 7)
    ∧ pySlice exFileComment 4 19 = "\x7b\n    \x27a\x27: 1,\n\x7d".data
    ∧ (7 : Nat) ≠ 19 := by
  decide

/-- C6: the claim asserts `start_index ≤ body_start_index ≤ body_end_index ≤
end_index` for every node.  Evaluated at `exVarInvariant`: the value starts
at offset 8, but the no-sibling scan resolves `end_index` to 1 (the same
off-by-one as in C5), so `body_start_index = 8 > body_end_index = 1` and the
chain fails. -/
theorem c6_offset_invariant_violated :
    VariableNode.start_index exVarInvariant = Except.ok 0
    ∧ VariableNode.body_start_index exVarInvariant = Except.ok 8
    ∧ VariableNode.body_end_index exVarInvariant = Except.ok 1
    ∧ VariableNode.end_index exVarInvariant = Except.ok (some 1)
    ∧ ¬ (8 : Nat) ≤ 1 := by
  decide

/-- C8 counterexample: invoking `overwrite` on a node with no backing file
(the project root) fails with the `IOError` from opening the directory, not
with a `NodeUnaddressable` condition — no such condition exists anywhere in
the sources. -/
theorem c8_counterexample_io_error_not_unaddressable :
    overwrite exProjectNode ("x".data) = Except.error PyErr.ioError
    ∧ overwrite exProjectNode ("x".data) ≠
        Except.error PyErr.nodeUnaddressable := by
  decide

/-- If a character does not occur in a list, searching for it by `==` finds
no index. -/
theorem findIdx_beq_eq_none {c : Char} {l : List Char} (h : c ∉ l) :
    l.findIdx? (fun x => x == c) = none := by
  rw [List.findIdx?_eq_none_iff]
  intro x hx
  have hne : x ≠ c := fun he => h (he ▸ hx)
  simp [hne]

/-- Comment stripping only removes characters: anything absent from a line is
absent from the stripped line. -/
theorem not_mem_stripComment {c : Char} {l : List Char} (h : c ∉ l) :
    c ∉ stripComment l := by
  unfold stripComment
  split
  · exact fun hmem => h (List.mem_of_mem_take hmem)
  · exact h

/-- If the terminating character occurs in none of the remaining lines, the
reverse scan falls through and returns Python `None`. -/
theorem scanLinesRev_eq_none (src : List Char) (term : Char) (a t : Nat) :
    ∀ (ls : List (List Char)) (i : Nat), (∀ l ∈ ls, term ∉ l) →
      scanLinesRev src term a t ls i = Except.ok none := by
  intro ls
  induction ls with
  | nil => intro i _; rfl
  | cons l rest ih =>
    intro i h
    have hl : term ∉ stripComment l := not_mem_stripComment (h l (by simp))
    have hfind :
        (stripComment l).reverse.findIdx? (fun c => c == term) = none :=
      findIdx_beq_eq_none (fun hm => hl (List.mem_reverse.mp hm))
    simp only [scanLinesRev, hfind]
    exact ih (i + 1) (fun x hx => h x (List.mem_cons_of_mem _ hx))

/-- C2 (amended): when no candidate scan line contains the terminating
character, `VariableNode.end_index` yields Python `None` — an absent result;
no `BoundaryNotFound` condition is raised (none exists in the code). -/
theorem c2_amended_end_index_none (v : VariableNode) (src : List Char)
    (ls : List (List Char)) (term : Char)
    (hf : v.file = some src)
    (hls : v.lines_to_scan = Except.ok ls)
    (hterm : v.value_as_string.getLast? = some term)
    (hno : ∀ l ∈ ls, term ∉ l) :
    v.end_index = Except.ok none := by
  have hsrc : v.get_file_source_code = Except.ok src := by
    simp [VariableNode.get_file_source_code, hf]
  simp only [VariableNode.end_index, hsrc, hls, hterm, Bind.bind, Except.bind]
  exact scanLinesRev_eq_none src term (v.value_tolineno - 1) ls.length
    ls.reverse 0 (fun l hl => hno l (List.mem_reverse.mp hl))

/-- C2 witness: the amended statement applied at `exVarNoOccur`. -/
theorem c2_amended_witness : VariableNode.end_index exVarNoOccur =
    Except.ok none :=
  c2_amended_end_index_none exVarNoOccur ("x = \x7b\x7d\n".data) [] '\x7d'
    rfl (by decide) (by decide) (by simp)

/-- C7: `overwrite_body` produces a Change whose range runs from the
body-span start offset through the whole-span's line-extended end offset
(column 0 of `end_line + 1`, minus one); and for a whole-file `ModuleNode`,
whose body-span coincides with its whole-span, `overwrite_body` produces
exactly the same Change as `overwrite`. -/
theorem c7_overwrite_body_range (v : Node) (text src : List Char) (a b : Nat)
    (hf : v.file = some src)
    (ha : line_column_to_absolute_index src v.body_start_line
      v.body_start_column = Except.ok a)
    (hb : line_column_to_absolute_index src (v.end_line + 1) 0 =
      Except.ok b) :
    overwrite_body v text =
      Except.ok { path := v.fs_path, start := a, end_ := b - 1,
                  new_text := text }
    ∧ ∀ (fs : String) (f : Option (List Char)) (fl tl : Nat) (t : List Char),
        overwrite_body (ModuleNode fs f fl tl) t =
          overwrite (ModuleNode fs f fl tl) t := by
  constructor
  · have hsrc : v.get_file_source_code = Except.ok src := by
      simp [Node.get_file_source_code, hf]
    simp [overwrite_body, hsrc, ha, hb, overwrite_file_region,
      Bind.bind, Except.bind]
  · intro fs f fl tl t
    cases f <;> rfl

/-- C7 witness: the range statement applied at the class node of
`exFileClass` (body start offset 9, line-extended end offset 24 - 1). -/
theorem c7_witness :
    overwrite_body exClassNode ("B\n".data) =
      Except.ok { path := "f.py", start := 9, end_ := 23,
                  new_text := "B\n".data } :=
  (c7_overwrite_body_range exClassNode ("B\n".data) exFileClass 9 24
    rfl (by decide) (by decide)).1

/-- C8 (amended): each of the four change-generator operations, invoked on a
node with no backing file, fails with the `IOError` raised by opening the
node's `fs_path` (a directory) — not with a `NodeUnaddressable` condition. -/
theorem c8_amended_ops_fail_with_io_error (n : Node) (t : List Char) (i : Nat)
    (h : n.file = none) :
    overwrite n t = Except.error PyErr.ioError
    ∧ overwrite_body n t = Except.error PyErr.ioError
    ∧ inject_at_index n i t = Except.error PyErr.ioError
    ∧ inject_at_body_index n i t = Except.error PyErr.ioError := by
  refine ⟨?_, ?_, ?_, ?_⟩ <;>
    simp [overwrite, overwrite_body, inject_at_index, inject_at_body_index,
      Node.get_source_code, Node.get_source, Node.start_index, Node.end_index,
      Node.get_body_source_code, Node.get_body_source, Node.body_start_index,
      Node.body_end_index, Node.get_file_source_code, h, Bind.bind,
      Except.bind]

/-- C8 witness: the amended statement applied at the project root node. -/
theorem c8_amended_witness :
    overwrite exProjectNode ("y".data) = Except.error PyErr.ioError
    ∧ overwrite_body exProjectNode ("y".data) = Except.error PyErr.ioError
    ∧ inject_at_index exProjectNode 0 ("y".data) =
        Except.error PyErr.ioError
    ∧ inject_at_body_index exProjectNode 0 ("y".data) =
        Except.error PyErr.ioError :=
  c8_amended_ops_fail_with_io_error exProjectNode ("y".data) 0 rfl

/-- The decimal digit characters decode back to their values. -/
theorem digitChar_toNat_of_lt : ∀ m : Nat, m < 10 →
    (Nat.digitChar m).toNat = m + 48 := by
  decide

/-- `Nat.toDigitsCore` emits its accumulator unchanged on the right. -/
theorem toDigitsCore_append (b : Nat) :
    ∀ (fuel n : Nat) (ds : List Char),
      Nat.toDigitsCore b fuel n ds = Nat.toDigitsCore b fuel n [] ++ ds := by
  intro fuel
  induction fuel with
  | zero => intro n ds; rfl
  | succ f ih =>
    intro n ds
    simp only [Nat.toDigitsCore]
    split
    · rfl
    · rw [ih (n / b) (Nat.digitChar (n % b) :: ds),
        ih (n / b) [Nat.digitChar (n % b)]]
      simp

/-- Appending one digit multiplies the valuation by ten and adds the
digit. -/
theorem decDigitsVal_append_singleton (l : List Char) (c : Char) :
    decDigitsVal (l ++ [c]) = decDigitsVal l * 10 + (c.toNat - 48) := by
  simp [decDigitsVal, List.foldl_append]

/-- The decimal valuation inverts `Nat.toDigitsCore` at base ten. -/
theorem decDigitsVal_toDigitsCore :
    ∀ (fuel n : Nat), n < fuel →
      decDigitsVal (Nat.toDigitsCore 10 fuel n []) = n := by
  intro fuel
  induction fuel with
  | zero => intro n h; omega
  | succ f ih =>
    intro n h
    simp only [Nat.toDigitsCore]
    by_cases h10 : n / 10 = 0
    · have hn : n < 10 := by omega
      have hmod : n % 10 = n := Nat.mod_eq_of_lt hn
      rw [if_pos h10, hmod]
      simp only [decDigitsVal, List.foldl_cons, List.foldl_nil,
        digitChar_toNat_of_lt n hn]
      omega
    · rw [if_neg h10, toDigitsCore_append, decDigitsVal_append_singleton,
        ih (n / 10) (by omega),
        digitChar_toNat_of_lt (n % 10) (Nat.mod_lt _ (by norm_num))]
      omega

/-- Two naturals with the same decimal rendering are equal. -/
theorem natRepr_data_inj {m n : Nat}
    (h : (Nat.repr m).data = (Nat.repr n).data) : m = n := by
  have h2 : Nat.toDigitsCore 10 (m + 1) m [] =
      Nat.toDigitsCore 10 (n + 1) n [] := h
  have hm := decDigitsVal_toDigitsCore (m + 1) m (Nat.lt_succ_self m)
  have hn := decDigitsVal_toDigitsCore (n + 1) n (Nat.lt_succ_self n)
  rw [h2] at hm
  omega

/-- The candidate names `base ++ "_" ++ str(N)` are pairwise distinct. -/
theorem importCand_injective (base : String) :
    Function.Injective (fun n : Nat => base ++ "_" ++ Nat.repr n) := by
  intro m n h
  apply natRepr_data_inj
  have h2 := congrArg String.data h
  simp only [String.data_append] at h2
  exact List.append_cancel_left h2

/-- If the disambiguation loop returns a name, that name is the first
candidate (counting from `start`) not among the siblings. -/
theorem importNameLoop_sound (base : String) (siblings : List String) :
    ∀ (fuel start : Nat) (name : String),
      importNameLoop base siblings fuel start = some name →
      ∃ k, k < fuel ∧ name = base ++ "_" ++ Nat.repr (start + k) ∧
        name ∉ siblings ∧
        ∀ j, j < k → (base ++ "_" ++ Nat.repr (start + j)) ∈ siblings := by
  intro fuel
  induction fuel with
  | zero => intro start name h; simp [importNameLoop] at h
  | succ f ih =>
    intro start name h
    simp only [importNameLoop] at h
    by_cases hc : (base ++ "_" ++ Nat.repr start) ∈ siblings
    · rw [if_pos hc] at h
      obtain ⟨k, hk, hname, hnot, hall⟩ := ih (start + 1) name h
      refine ⟨k + 1, by omega, ?_, hnot, ?_⟩
      · rw [hname, show start + (k + 1) = start + 1 + k by omega]
      · intro j hj
        cases j with
        | zero => simpa using hc
        | succ j' =>
          have := hall j' (by omega)
          rwa [show start + 1 + j' = start + (j' + 1) by omega] at this
    · rw [if_neg hc] at h
      refine ⟨0, by omega, ?_, ?_, by omega⟩
      · cases h; simp
      · cases h; simpa using hc

/-- If the disambiguation loop runs out of fuel, every candidate it tried
was among the siblings. -/
theorem importNameLoop_none (base : String) (siblings : List String) :
    ∀ (fuel start : Nat),
      importNameLoop base siblings fuel start = none →
      ∀ j, j < fuel → (base ++ "_" ++ Nat.repr (start + j)) ∈ siblings := by
  intro fuel
  induction fuel with
  | zero => intro start _ j hj; omega
  | succ f ih =>
    intro start h j hj
    simp only [importNameLoop] at h
    by_cases hc : (base ++ "_" ++ Nat.repr start) ∈ siblings
    · rw [if_pos hc] at h
      cases j with
      | zero => simpa using hc
      | succ j' =>
        have := ih (start + 1) h j' (by omega)
        rwa [show start + 1 + j' = start + (j' + 1) by omega] at this
    · rw [if_neg hc] at h
      cases h

/-- With `siblings.length + 1` fuel the disambiguation loop cannot run out:
the candidates are pairwise distinct, so they cannot all be among the
siblings. -/
theorem importNameLoop_total (base : String) (siblings : List String) :
    importNameLoop base siblings (siblings.length + 1) 0 ≠ none := by
  intro hnone
  have hall := importNameLoop_none base siblings _ 0 hnone
  have hnodup : ((List.range (siblings.length + 1)).map
      (fun j => base ++ "_" ++ Nat.repr j)).Nodup :=
    (List.nodup_range _).map (importCand_injective base)
  have hsub : ∀ x ∈ (List.range (siblings.length + 1)).map
      (fun j => base ++ "_" ++ Nat.repr j), x ∈ siblings := by
    intro x hx
    obtain ⟨j, hj, rfl⟩ := List.mem_map.mp hx
    simpa using hall j (List.mem_range.mp hj)
  have hcard : ((List.range (siblings.length + 1)).map
      (fun j => base ++ "_" ++ Nat.repr j)).length ≤ siblings.length := by
    rw [← List.toFinset_card_of_nodup hnodup]
    calc ((List.range (siblings.length + 1)).map
        (fun j => base ++ "_" ++ Nat.repr j)).toFinset.card
        ≤ siblings.toFinset.card := by
          apply Finset.card_le_card
          intro x hx
          rw [List.mem_toFinset] at hx ⊢
          exact hsub x hx
      _ ≤ siblings.length := siblings.toFinset_card_le
  simp only [List.length_map, List.length_range] at hcard
  omega

/-- C9: the name an `ImportNode` is given never collides with an existing
sibling name; it is the base local name when that is free, and otherwise the
base name with `_N` appended for the least `N` (in order 0, 1, 2, ...) whose
suffixed form is free. -/
theorem c9_import_name_disambiguation (base : String)
    (siblings : List String) :
    ∃ name, importNodeName base siblings = some name ∧ name ∉ siblings ∧
      (base ∉ siblings → name = base) ∧
      (base ∈ siblings →
        ∃ N, name = base ++ "_" ++ Nat.repr N ∧
          (base ++ "_" ++ Nat.repr N) ∉ siblings ∧
          ∀ M, M < N → (base ++ "_" ++ Nat.repr M) ∈ siblings) := by
  by_cases hb : base ∈ siblings
  · cases hE : importNameLoop base siblings (siblings.length + 1) 0 with
    | none => exact absurd hE (importNameLoop_total base siblings)
    | some name =>
      obtain ⟨k, _, hname, hnot, hall⟩ :=
        importNameLoop_sound base siblings _ 0 name hE
      refine ⟨name, by simp [importNodeName, hb, hE], hnot,
        fun h => absurd hb h, fun _ => ⟨k, by simpa using hname, ?_, ?_⟩⟩
      · rw [show base ++ "_" ++ Nat.repr k = name by simpa using hname.symm]
        exact hnot
      · intro M hM
        simpa using hall M hM
  · exact ⟨base, by simp [importNodeName, hb], hb, fun _ => rfl,
      fun h => absurd h hb⟩

/-- C9 witness: the disambiguation statement at `base = "datetime"` with
siblings `datetime` and `datetime_0` already taken. -/
theorem c9_witness :
    ∃ name, importNodeName "datetime" ["datetime", "datetime_0"] =
        some name ∧
      name ∉ ["datetime", "datetime_0"] ∧
      ("datetime" ∉ ["datetime", "datetime_0"] → name = "datetime") ∧
      ("datetime" ∈ ["datetime", "datetime_0"] →
        ∃ N, name = "datetime" ++ "_" ++ Nat.repr N ∧
          ("datetime" ++ "_" ++ Nat.repr N) ∉ ["datetime", "datetime_0"] ∧
          ∀ M, M < N →
            ("datetime" ++ "_" ++ Nat.repr M) ∈ ["datetime", "datetime_0"]) :=
  c9_import_name_disambiguation "datetime" ["datetime", "datetime_0"]

/-- C10: the comment-removal step truncates every scanned line at its first
`#` before the terminating-character search, with no awareness of string
literals: any occurrence of the terminating character at or after the first
`#` of a line is invisible to the scan (first conjunct, where the hypothesis
says every occurrence of the terminating character on the line sits at or
after the first `#`).  Consequently, at `exVarHash` — whose value
`['a#b']` has its true final character `]` at offset 11, just past it
offset 12, on a final line whose `#` sits inside a string literal — the
candidate line is truncated to `'a` and the resolution yields Python `None`
rather than offset 12. -/
theorem c10_comment_stripping_is_string_blind :
    (∀ (ln : List Char) (term : Char), '#' ∈ ln →
      (∀ p (hp : p < ln.length), ln.get ⟨p, hp⟩ = term →
        ln.findIdx (fun c => c == '#') ≤ p) →
      (stripComment ln).reverse.findIdx? (fun c => c == term) = none)
    ∧ VariableNode.lines_to_scan exVarHash =
        Except.ok ["\x27a#b\x27]\n".data, []]
    ∧ VariableNode.end_index exVarHash = Except.ok none
    ∧ pySlice exFileHash 4 12 = "[\n\x27a#b\x27]".data
    ∧ VariableNode.end_index exVarHash ≠ Except.ok (some 12) := by
  refine ⟨?_, by decide, by decide, by decide, by decide⟩
  intro ln term hmem hleast
  apply findIdx_beq_eq_none
  intro hmR
  have hm : term ∈ stripComment ln := List.mem_reverse.mp hmR
  have hstrip : stripComment ln =
      ln.take (ln.findIdx (fun c => c == '#')) := by
    unfold stripComment
    rw [if_pos (List.elem_iff.mpr hmem)]
  rw [hstrip] at hm
  obtain ⟨p, hp, hpe⟩ := List.getElem_of_mem hm
  have hpk : p < ln.findIdx (fun c => c == '#') := by
    have h2 := hp
    simp only [List.length_take] at h2
    omega
  have hq : ln[p]? = some term := by
    rw [← List.getElem?_take_of_lt hpk, List.getElem?_eq_getElem hp, hpe]
  have hplen : p < ln.length := by
    have := List.getElem?_eq_some_iff.mp hq
    exact this.1
  have hpeq : ln.get ⟨p, hplen⟩ = term := by
    have := (List.getElem?_eq_some_iff.mp hq).2
    simpa using this
  have hle := hleast p hplen hpeq
  omega

/-- C10 witness: the first conjunct applied at the final value line of
`exFileHash` (`'a#b']\n`) and terminating character `]`: the occurrence of
`]` sits after the `#` hidden in the string literal, so the scan of the
stripped line finds nothing. -/
theorem c10_witness :
    (stripComment ("\x27a#b\x27]\n".data)).reverse.findIdx?
      (fun c => c == ']') = none :=
  c10_comment_stripping_is_string_blind.1 ("\x27a#b\x27]\n".data) ']'
    (by decide) (by decide)

end CodeMonkey
